import Mathlib

/-!
Shallow embedding of ray/rllib/core/models/catalog.py (the Catalog class and
its resolver classmethods) together with the external collaborators the file
reads: Python dicts (modelled as ordered association lists with Python
dict-merge semantics), the gymnasium space taxonomy the code pattern-matches
on, the MODEL_DEFAULTS table and the get_filter_config heuristic.

Python values that occur in the model configuration are modelled by the
closed universe CVal (None, bools, ints, strings, int lists, and lists of
int lists for conv-filter specs); these are exactly the value shapes the
recognized configuration keys take.
-/

/-- Python values occurring in model-configuration dicts. -/
inductive CVal where
  | none
  | bool (b : Bool)
  | int (n : Int)
  | str (s : String)
  | intList (l : List Int)
  | intListList (l : List (List Int))
deriving DecidableEq, Repr

deriving instance DecidableEq for Except

/-- Python truthiness of a CVal, as used by if-tests and the or-operator. -/
def CVal.truthy : CVal → Bool
  | .none => false
  | .bool b => b
  | .int n => n != 0
  | .str s => s != ""
  | .intList l => !l.isEmpty
  | .intListList l => !l.isEmpty

/-- A Python dict, modelled as an insertion-ordered association list. -/
abbrev PyDict := List (String × CVal)

/-- First-occurrence lookup in an association list (Python dict lookup; on
dicts kept in canonical unique-key form first and last occurrence agree). -/
def alookup {α : Type} : List (String × α) → String → Option α
  | [], _ => Option.none
  | e :: rest, k => if e.1 = k then Option.some e.2 else alookup rest k

/-- Last-occurrence lookup in an association list; this is the value that
survives a Python dict-literal / merge with duplicate keys. -/
def lastLookup {α : Type} : List (String × α) → String → Option α
  | [], _ => Option.none
  | e :: rest, k =>
    match lastLookup rest k with
    | Option.some v => Option.some v
    | Option.none => if e.1 = k then Option.some e.2 else Option.none

/-- Python dict assignment d[k] = v: replaces the value at an existing key in
place (keeping its position), appends the pair at the end otherwise. -/
def setKey {α : Type} (d : List (String × α)) (k : String) (v : α) : List (String × α) :=
  if (alookup d k).isSome then d.map (fun e => if e.1 = k then (k, v) else e)
  else d ++ [(k, v)]

/-- Python dict merge of two dicts written as a double-splat literal: start
from a copy of the first dict and assign every entry of the second in order
(the second dict wins on key collisions). -/
def pyMerge {α : Type} (a b : List (String × α)) : List (String × α) :=
  b.foldl (fun d e => setKey d e.1 e.2) a

/-- Read of d[k] on a dict known to contain k (every key the resolver reads
is present in MODEL_DEFAULTS, hence in every merged dict), and also d.get(k)
which defaults to None. -/
def mget (d : PyDict) (k : String) : CVal := (alookup d k).getD CVal.none

/-- Keys of a dict in order. -/
def dictKeys {α : Type} (d : List (String × α)) : List String := d.map Prod.fst

/-- Errors raised by the embedded code. The NotImplementedError message
distinguishes the attention branch (empty message, catalog.py line 189) from
the complex-observation-space branch (line 228); the interpolated parts of
the ValueError / unsupported-space messages are elided. -/
inductive PyError where
  | notImplementedError (msg : String)
  | valueError (msg : String)
  | unsupportedSpaceException
  | keyError (key : String)
  | indexError
  | typeError (msg : String)
deriving DecidableEq, Repr

/-- Python indexing v[-1], modelled for the sequence shapes the config keys
take; a non-sequence raises a TypeError. -/
def pyIndexLast : CVal → Except PyError CVal
  | .intList l => if l.isEmpty then .error .indexError else .ok (.int (l.getLastD 0))
  | .intListList l => if l.isEmpty then .error .indexError else .ok (.intList (l.getLastD []))
  | _ => .error (.typeError "object is not subscriptable")

/-- Python slicing v[:-1] for the sequence shapes of the config keys. It is
only reached (catalog.py line 200) after v[-1] succeeded on the same value
at line 173, so the fall-through case is unreachable in the source. -/
def pySliceDropLast : CVal → CVal
  | .intList l => .intList l.dropLast
  | .intListList l => .intListList l.dropLast
  | v => v

/-- The gymnasium space taxonomy that the resolvers pattern-match on via
isinstance checks. Children of composite spaces are never inspected by this
core, so only their count is kept. Modelled from the spec: the Simplex space
(ray.rllib.utils.spaces.simplex, not part of the given sources) is a
taxonomy variant of its own, distinct from Box, per the spec's Space
Classifier and its Simplex dispatch rule. -/
inductive GymSpace where
  | box (shape : List Nat) (dtypeIsInteger : Bool)
  | discrete (n : Nat)
  | multiDiscrete (counts : List Nat)
  | tuple (numChildren : Nat)
  | dict (numChildren : Nat)
  | simplex (shape : List Nat)
  | other (tag : String)
deriving DecidableEq, Repr

/-- View requirements are opaque to this core and only passed through. -/
abbrev ViewReq := PyDict

/-- Modelled from the spec: the fixed process-wide default table
MODEL_DEFAULTS (ray.rllib.models, not part of the given sources). The spec
fixes the key set relevant to this core and that encoder_latent_dim and
conv_filters default to absent/None and the lstm/attention flags to false;
the remaining concrete values are the library's conventional defaults. -/
def MODEL_DEFAULTS : PyDict :=
  [("fcnet_hiddens", CVal.intList [256, 256]),
   ("fcnet_activation", CVal.str "tanh"),
   ("encoder_latent_dim", CVal.none),
   ("use_lstm", CVal.bool false),
   ("use_attention", CVal.bool false),
   ("lstm_cell_size", CVal.int 256),
   ("_time_major", CVal.bool false),
   ("conv_filters", CVal.none)]

/-- The encoder-configuration objects produced by the resolver, with the
constructor arguments in the order they are passed in catalog.py. The
LSTMEncoderConfig additionally receives the fixed classmethod
cls.get_tokenizer_config as its tokenizer callback (line 186); that callback
is modelled by the top-level function get_tokenizer_config below. -/
inductive EncoderConfig where
  | mlp (input_dim : Nat) (hidden_layer_dims : CVal) (hidden_layer_activation : CVal)
      (output_dim : CVal) (output_activation : CVal)
  | cnn (input_dims : List Nat) (filter_specifiers : CVal) (filter_layer_activation : CVal)
      (output_activation : CVal) (output_dim : CVal)
  | lstm (hidden_dim : CVal) (batch_first : Bool) (num_layers : Nat) (output_dim : CVal)
      (output_activation : CVal) (observation_space : GymSpace)
      (action_space : Option GymSpace) (view_requirements_dict : Option ViewReq)
deriving DecidableEq, Repr

/-- The output_dim attribute every encoder-config variant carries. -/
def EncoderConfig.output_dim : EncoderConfig → CVal
  | .mlp _ _ _ o _ => o
  | .cnn _ _ _ _ o => o
  | .lstm _ _ _ o _ _ _ _ => o

/-- Whether a config is the LSTM variant. -/
def EncoderConfig.isLstm : EncoderConfig → Bool
  | .lstm _ _ _ _ _ _ _ _ => true
  | _ => false

/-- Lines 172-174 of catalog.py: encoder_latent_dim =
model_config_dict["encoder_latent_dim"] or fcnet_hiddens[-1] (Python or:
keep the left value when truthy, else evaluate the indexing). -/
def eldResolve (m : PyDict) : Except PyError CVal :=
  if (mget m "encoder_latent_dim").truthy then .ok (mget m "encoder_latent_dim")
  else pyIndexLast (mget m "fcnet_hiddens")

/-- Catalog.get_encoder_config (catalog.py lines 131-230). The first
argument models the imported external heuristic get_filter_config
(ray.rllib.models.utils). The function rebinds its local name to a fresh
merged dict at line 167; the returned pair is the resolved encoder config
together with the final value of that local dict (which differs from the
merged input exactly when the 3-D-Box branch derived conv_filters at lines
213-216). -/
def get_encoder_config (gfc : List Nat → List (List Int)) (observation_space : GymSpace)
    (model_config_dict : PyDict) (action_space : Option GymSpace)
    (view_requirements : Option ViewReq) : Except PyError (EncoderConfig × PyDict) :=
  let m := pyMerge MODEL_DEFAULTS model_config_dict
  let activation := mget m "fcnet_activation"
  let output_activation := mget m "fcnet_activation"
  let fcnet_hiddens := mget m "fcnet_hiddens"
  match eldResolve m with
  | .error e => .error e
  | .ok encoder_latent_dim =>
    if (mget m "use_lstm").truthy then
      .ok (.lstm (mget m "lstm_cell_size") (!(mget m "_time_major").truthy) 1
            (mget m "lstm_cell_size") output_activation observation_space action_space
            view_requirements, m)
    else if (mget m "use_attention").truthy then
      .error (.notImplementedError "")
    else
      match observation_space with
      | .box shape _ =>
        if shape.length = 1 then
          let hidden_layer_dims :=
            if (mget m "encoder_latent_dim").truthy then mget m "fcnet_hiddens"
            else pySliceDropLast fcnet_hiddens
          .ok (.mlp (shape.getD 0 0) hidden_layer_dims activation encoder_latent_dim
                output_activation, m)
        else if shape.length = 3 then
          let m1 :=
            if !(mget m "conv_filters").truthy then
              setKey m "conv_filters" (CVal.intListList (gfc shape))
            else m
          .ok (.cnn shape (mget m1 "conv_filters") activation output_activation
                encoder_latent_dim, m1)
        else .error (.notImplementedError "No default config for complex spaces yet!")
      | _ => .error (.notImplementedError "No default config for complex spaces yet!")

/-- Catalog.get_tokenizer_config (catalog.py lines 232-249): delegate to
get_encoder_config on a fresh dict literal that forces the use_lstm and
use_attention flags to False. -/
def get_tokenizer_config (gfc : List Nat → List (List Int)) (space : GymSpace)
    (model_config_dict : PyDict) : Except PyError (EncoderConfig × PyDict) :=
  get_encoder_config gfc space
    (pyMerge model_config_dict
      [("use_lstm", CVal.bool false), ("use_attention", CVal.bool false)])
    Option.none Option.none

/-- The action-distribution classes referenced by catalog.py. -/
inductive DistCls where
  | TorchDeterministic
  | TfDeterministic
  | TorchDiagGaussian
  | TfDiagGaussian
  | TorchCategorical
  | TfCategorical
deriving DecidableEq, Repr

/-- The distribution_dicts literal of catalog.py lines 276-280: a dict from
family name to a dict from framework tag to distribution class. -/
def distribution_dicts : List (String × List (String × DistCls)) :=
  [("deterministic", [("torch", DistCls.TorchDeterministic), ("tf", DistCls.TfDeterministic)]),
   ("gaussian", [("torch", DistCls.TorchDiagGaussian), ("tf", DistCls.TfDiagGaussian)]),
   ("categorical", [("torch", DistCls.TorchCategorical), ("tf", DistCls.TfCategorical)])]

/-- Catalog.get_action_dist_cls_dict (catalog.py lines 251-324). The
distribution_dicts subscripts always hit existing keys, so the getD default
is never used. -/
def get_action_dist_cls_dict (action_space : GymSpace) (deterministic : Bool) :
    Except PyError (List (String × DistCls)) :=
  match action_space with
  | .box shape dtypeIsInteger =>
    if dtypeIsInteger then
      .error (.valueError
        "Box(..., int) action spaces are not supported. Use MultiDiscrete  or Box(..., float).")
    else if shape.length > 1 then
      .error .unsupportedSpaceException
    else if deterministic then
      .ok ((alookup distribution_dicts "deterministic").getD [])
    else
      .ok ((alookup distribution_dicts "gaussian").getD [])
  | .discrete _ => .ok ((alookup distribution_dicts "categorical").getD [])
  | .tuple _ => .error (.notImplementedError "Tuple/Dict spaces not yet supported.")
  | .dict _ => .error (.notImplementedError "Tuple/Dict spaces not yet supported.")
  | .simplex _ => .error (.notImplementedError "Simplex action space not yet supported.")
  | .multiDiscrete _ => .error (.notImplementedError "MultiDiscrete spaces not yet supported.")
  | .other _ => .error (.notImplementedError "Unsupported action space")

/-- A minimal heap of Python dict objects: dict-valued variables are
references (indices) into this store, so that rebinding a local name to a
fresh dict (an allocation) is distinguishable from mutating the dict object
a caller passed in. -/
structure Store where
  dicts : List PyDict
deriving DecidableEq, Repr

/-- Dereference a dict reference. -/
def Store.get (s : Store) (r : Nat) : PyDict := s.dicts.getD r []

/-- Allocate a fresh dict object, returning the extended store and the new
reference. -/
def Store.alloc (s : Store) (d : PyDict) : Store × Nat :=
  (Store.mk (s.dicts ++ [d]), s.dicts.length)

/-- Store-threaded version of get_encoder_config, as invoked on a
caller-owned dict object: line 167 allocates a fresh merged dict (also on
the paths that subsequently raise, since every raise comes after line 167),
and the local writes of lines 213-216 target only that fresh object. -/
def get_encoder_config_st (gfc : List Nat → List (List Int)) (s : Store)
    (observation_space : GymSpace) (cfgRef : Nat) (action_space : Option GymSpace)
    (view_requirements : Option ViewReq) : Except PyError EncoderConfig × Store :=
  match get_encoder_config gfc observation_space (s.get cfgRef) action_space view_requirements with
  | .ok (cfg, localDict) => (.ok cfg, (s.alloc localDict).1)
  | .error e => (.error e, (s.alloc (pyMerge MODEL_DEFAULTS (s.get cfgRef))).1)

/-- The Catalog object with the attributes set by __init__ (catalog.py lines
94-116). The stored model_config_dict is a reference to the merged dict
object allocated at line 98. -/
structure Catalog where
  observation_space : GymSpace
  action_space : GymSpace
  model_config_dict : Nat
  view_requirements : Option ViewReq
  encoder_config : EncoderConfig
  action_dist_cls_dict : List (String × DistCls)
  latent_dim : CVal
deriving DecidableEq, Repr

/-- Catalog.__init__ (catalog.py lines 73-116): allocate and store the
merged dict (line 98), resolve the encoder config passing the raw
caller-supplied dict (lines 102-107), resolve the action-distribution dict
(lines 110-112), and derive latent_dim (line 116). On a raise no Catalog
value exists. -/
def Catalog.init (gfc : List Nat → List (List Int)) (s : Store)
    (observation_space action_space : GymSpace) (cfgRef : Nat)
    (view_requirements : Option ViewReq) : Except PyError Catalog × Store :=
  let alloc1 := s.alloc (pyMerge MODEL_DEFAULTS (s.get cfgRef))
  match get_encoder_config_st gfc alloc1.1 observation_space cfgRef (Option.some action_space)
      view_requirements with
  | (.error e, s2) => (.error e, s2)
  | (.ok enc, s2) =>
    match get_action_dist_cls_dict action_space false with
    | .error e => (.error e, s2)
    | .ok dists =>
      (.ok (Catalog.mk observation_space action_space alloc1.2 view_requirements enc dists
        enc.output_dim), s2)

/-- Catalog.get_action_dist_cls (catalog.py lines 326-340): a pure subscript
into the stored mapping, raising KeyError on an unknown framework tag. -/
def Catalog.get_action_dist_cls (cat : Catalog) (framework : String) : Except PyError DistCls :=
  match alookup cat.action_dist_cls_dict framework with
  | Option.some v => .ok v
  | Option.none => .error (.keyError framework)

/-! Lemmas about the dict operations. -/

theorem alookup_append {α : Type} (d l : List (String × α)) (k : String) :
    alookup (d ++ l) k = Option.or (alookup d k) (alookup l k) := by
  induction d with
  | nil => simp [alookup]
  | cons e rest ih =>
    by_cases h : e.1 = k <;> simp [alookup, h, ih]

theorem lastLookup_append {α : Type} (d l : List (String × α)) (k : String) :
    lastLookup (d ++ l) k = Option.or (lastLookup l k) (lastLookup d k) := by
  induction d with
  | nil => cases h : lastLookup l k <;> simp [lastLookup, h]
  | cons e rest ih =>
    cases h : lastLookup l k <;> cases h' : lastLookup rest k <;>
      by_cases he : e.1 = k <;>
        simp [lastLookup, ih, h, h', he, Option.or]

theorem alookup_map_set {α : Type} (d : List (String × α)) (k : String) (v : α) (k' : String) :
    alookup (d.map (fun e => if e.1 = k then (k, v) else e)) k' =
      if k' = k then (if (alookup d k).isSome then Option.some v else Option.none)
      else alookup d k' := by
  induction d with
  | nil => simp [alookup]
  | cons e rest ih =>
    by_cases he : e.1 = k
    · by_cases hk : k' = k
      · subst hk; simp [alookup, he]
      · have hk' : ¬ (k = k') := fun h => hk h.symm
        simp [alookup, he, hk, hk', ih]
    · by_cases he' : e.1 = k'
      · have hk : ¬ (k' = k) := by
          intro h; exact he (he'.trans h)
        simp [alookup, he, he', hk]
      · simp [alookup, he, he', ih]

theorem lastLookup_map_set {α : Type} (d : List (String × α)) (k : String) (v : α) (k' : String) :
    lastLookup (d.map (fun e => if e.1 = k then (k, v) else e)) k' =
      if k' = k then (if (alookup d k).isSome then Option.some v else Option.none)
      else lastLookup d k' := by
  induction d with
  | nil => simp [lastLookup, alookup]
  | cons e rest ih =>
    by_cases hk : k' = k
    · subst hk
      by_cases he : e.1 = k' <;>
        by_cases hr : (alookup rest k').isSome <;>
          simp [lastLookup, alookup, he, ih, hr]
    · have hk2 : ¬ (k = k') := fun h => hk h.symm
      by_cases he : e.1 = k
      · have he' : ¬ (e.1 = k') := by rw [he]; exact hk2
        cases hx : lastLookup rest k' <;>
          simp [lastLookup, alookup, he, hk, hk2, he', ih, hx]
      · cases hx : lastLookup rest k' <;>
          simp [lastLookup, alookup, he, hk, ih, hx]

theorem alookup_setKey {α : Type} (d : List (String × α)) (k : String) (v : α) (k' : String) :
    alookup (setKey d k v) k' = if k' = k then Option.some v else alookup d k' := by
  unfold setKey
  by_cases h : (alookup d k).isSome
  · simp [h, alookup_map_set]
  · have hn : alookup d k = Option.none := by
      cases hx : alookup d k
      · rfl
      · rw [hx] at h; simp at h
    by_cases hk : k' = k
    · simp [h, alookup_append, hk, hn, alookup, Option.or]
    · have hk2 : ¬ (k = k') := fun hx => hk hx.symm
      cases hx : alookup d k' <;>
        simp [h, alookup_append, hk, hk2, hx, alookup, Option.or]

theorem lastLookup_setKey {α : Type} (d : List (String × α)) (k : String) (v : α) (k' : String) :
    lastLookup (setKey d k v) k' = if k' = k then Option.some v else lastLookup d k' := by
  unfold setKey
  by_cases h : (alookup d k).isSome
  · simp [h, lastLookup_map_set]
  · by_cases hk : k' = k
    · simp [h, lastLookup_append, hk, lastLookup, Option.or]
    · have hk2 : ¬ (k = k') := fun hx => hk hx.symm
      cases hx : lastLookup d k' <;>
        simp [h, lastLookup_append, hk, hk2, hx, lastLookup, Option.or]

theorem alookup_pyMerge {α : Type} (a b : List (String × α)) (k : String) :
    alookup (pyMerge a b) k = Option.or (lastLookup b k) (alookup a k) := by
  induction b generalizing a with
  | nil => cases h : alookup a k <;> simp [pyMerge, lastLookup, h, Option.or]
  | cons e rest ih =>
    have hstep : pyMerge a (e :: rest) = pyMerge (setKey a e.1 e.2) rest := rfl
    rw [hstep, ih, alookup_setKey]
    cases h' : lastLookup rest k
    · by_cases hk : k = e.1
      · have he : e.1 = k := hk.symm
        rw [if_pos hk]
        simp [lastLookup, h', he, Option.or]
      · have he : ¬ (e.1 = k) := fun hx => hk hx.symm
        rw [if_neg hk]
        simp [lastLookup, h', he, Option.or]
    · simp [lastLookup, h', Option.or]

theorem lastLookup_pyMerge {α : Type} (a b : List (String × α)) (k : String) :
    lastLookup (pyMerge a b) k = Option.or (lastLookup b k) (lastLookup a k) := by
  induction b generalizing a with
  | nil => cases h : lastLookup a k <;> simp [pyMerge, lastLookup, h, Option.or]
  | cons e rest ih =>
    have hstep : pyMerge a (e :: rest) = pyMerge (setKey a e.1 e.2) rest := rfl
    rw [hstep, ih, lastLookup_setKey]
    cases h' : lastLookup rest k
    · by_cases hk : k = e.1
      · have he : e.1 = k := hk.symm
        rw [if_pos hk]
        simp [lastLookup, h', he, Option.or]
      · have he : ¬ (e.1 = k) := fun hx => hk hx.symm
        rw [if_neg hk]
        simp [lastLookup, h', he, Option.or]
    · simp [lastLookup, h', Option.or]

theorem alookup_eq_none_of_not_mem {α : Type} (d : List (String × α)) (k : String)
    (h : k ∉ dictKeys d) : alookup d k = Option.none := by
  induction d with
  | nil => rfl
  | cons e rest ih =>
    rw [show dictKeys (e :: rest) = e.1 :: dictKeys rest from rfl, List.mem_cons] at h
    push_neg at h
    have he : ¬ (e.1 = k) := fun hx => h.1 hx.symm
    simp [alookup, he, ih h.2]

theorem lastLookup_eq_alookup {α : Type} (d : List (String × α))
    (h : (dictKeys d).Nodup) (k : String) : lastLookup d k = alookup d k := by
  induction d with
  | nil => rfl
  | cons e rest ih =>
    rw [show dictKeys (e :: rest) = e.1 :: dictKeys rest from rfl, List.nodup_cons] at h
    have hrest := ih h.2
    by_cases he : e.1 = k
    · have hnm : k ∉ dictKeys rest := by rw [← he]; exact h.1
      simp [lastLookup, alookup, he, hrest, alookup_eq_none_of_not_mem rest k hnm]
    · cases hx : alookup rest k <;> simp [lastLookup, alookup, he, hrest, hx]

theorem mget_setKey (d : PyDict) (k : String) (v : CVal) (k' : String) :
    mget (setKey d k v) k' = if k' = k then v else mget d k' := by
  unfold mget
  rw [alookup_setKey]
  by_cases hk : k' = k <;> simp [hk]

theorem dictKeys_MODEL_DEFAULTS_nodup : (dictKeys MODEL_DEFAULTS).Nodup := by decide

theorem mget_pyMerge_defaults_idem (c : PyDict) (k : String) :
    mget (pyMerge MODEL_DEFAULTS (pyMerge MODEL_DEFAULTS c)) k
      = mget (pyMerge MODEL_DEFAULTS c) k := by
  unfold mget
  rw [alookup_pyMerge, lastLookup_pyMerge, alookup_pyMerge,
    lastLookup_eq_alookup MODEL_DEFAULTS dictKeys_MODEL_DEFAULTS_nodup]
  cases hx : lastLookup c k <;> cases hD : alookup MODEL_DEFAULTS k <;> simp [Option.or]

theorem getD_append_lt {α : Type} (l l' : List α) (dflt : α) (n : Nat) (h : n < l.length) :
    (l ++ l').getD n dflt = l.getD n dflt := by
  induction l generalizing n with
  | nil => cases h
  | cons x xs ih =>
    cases n with
    | zero => rfl
    | succ m => exact ih m (Nat.lt_of_succ_lt_succ h)

theorem getD_append_self {α : Type} (l l' : List α) (dflt : α) :
    (l ++ l').getD l.length dflt = l'.getD 0 dflt := by
  induction l with
  | nil => rfl
  | cons x xs ih => exact ih

/-- The flag overrides written by get_tokenizer_config win over both the
caller-supplied dict and the defaults in the dict the inner resolver sees. -/
theorem tokenizer_flags_off (c : PyDict) :
    mget (pyMerge MODEL_DEFAULTS (pyMerge c
        [("use_lstm", CVal.bool false), ("use_attention", CVal.bool false)])) "use_lstm"
      = CVal.bool false ∧
    mget (pyMerge MODEL_DEFAULTS (pyMerge c
        [("use_lstm", CVal.bool false), ("use_attention", CVal.bool false)])) "use_attention"
      = CVal.bool false := by
  constructor <;>
    (unfold mget
     rw [alookup_pyMerge, lastLookup_pyMerge]
     simp [Option.or, show lastLookup
         [("use_lstm", CVal.bool false), ("use_attention", CVal.bool false)] "use_lstm"
         = Option.some (CVal.bool false) from by decide,
       show lastLookup
         [("use_lstm", CVal.bool false), ("use_attention", CVal.bool false)] "use_attention"
         = Option.some (CVal.bool false) from by decide])

/-- A concrete filter heuristic standing in for the external
get_filter_config parameter when theorems are instantiated at concrete
inputs. -/
def gfcW : List Nat → List (List Int) := fun _ => [[16, 8, 4], [32, 4, 2], [256, 11, 1]]

/-- C5: for a 1-D float Box action space, get_action_dist_cls_dict returns
the diagonal-Gaussian family mapping when deterministic is false and the
deterministic family mapping when deterministic is true, and every success
case carries exactly one constructor per supported backend tag (torch, tf). -/
theorem C5_box_action_families (shape : List Nat) (h : shape.length = 1) :
    get_action_dist_cls_dict (GymSpace.box shape false) false
      = Except.ok [("torch", DistCls.TorchDiagGaussian), ("tf", DistCls.TfDiagGaussian)] ∧
    get_action_dist_cls_dict (GymSpace.box shape false) true
      = Except.ok [("torch", DistCls.TorchDeterministic), ("tf", DistCls.TfDeterministic)] ∧
    (∀ (sp : GymSpace) (det : Bool) (d : List (String × DistCls)),
      get_action_dist_cls_dict sp det = Except.ok d → dictKeys d = ["torch", "tf"]) := by
  refine ⟨?_, ?_, ?_⟩
  · simp [get_action_dist_cls_dict, h, distribution_dicts, alookup]
  · simp [get_action_dist_cls_dict, h, distribution_dicts, alookup]
  · intro sp det d hd
    cases sp with
    | box s di =>
      simp only [get_action_dist_cls_dict] at hd
      split_ifs at hd
      · simp [distribution_dicts, alookup] at hd
        rw [← hd]; rfl
      · simp [distribution_dicts, alookup] at hd
        rw [← hd]; rfl
    | discrete n =>
      simp [get_action_dist_cls_dict, distribution_dicts, alookup] at hd
      rw [← hd]; rfl
    | tuple n => exact absurd hd (by simp [get_action_dist_cls_dict])
    | dict n => exact absurd hd (by simp [get_action_dist_cls_dict])
    | simplex s => exact absurd hd (by simp [get_action_dist_cls_dict])
    | multiDiscrete cs => exact absurd hd (by simp [get_action_dist_cls_dict])
    | other t => exact absurd hd (by simp [get_action_dist_cls_dict])

/-- C5 witness at the concrete shape (4,). -/
theorem C5_box_action_families_witness :
    get_action_dist_cls_dict (GymSpace.box [4] false) false
      = Except.ok [("torch", DistCls.TorchDiagGaussian), ("tf", DistCls.TfDiagGaussian)] ∧
    get_action_dist_cls_dict (GymSpace.box [4] false) true
      = Except.ok [("torch", DistCls.TorchDeterministic), ("tf", DistCls.TfDeterministic)] :=
  ⟨(C5_box_action_families [4] (by decide)).1, (C5_box_action_families [4] (by decide)).2.1⟩

/-- C6: every Discrete action space resolves to the categorical family
mapping, and the deterministic flag has no effect on the result. -/
theorem C6_discrete_categorical (n : Nat) (deterministic : Bool) :
    get_action_dist_cls_dict (GymSpace.discrete n) deterministic
      = Except.ok [("torch", DistCls.TorchCategorical), ("tf", DistCls.TfCategorical)] ∧
    get_action_dist_cls_dict (GymSpace.discrete n) deterministic
      = get_action_dist_cls_dict (GymSpace.discrete n) false := by
  constructor <;> rfl

/-- C8: Catalog.get_action_dist_cls is a pure lookup in the stored
action_dist_cls_dict: it returns the stored constructor exactly when the
backend tag is among the stored keys, and fails with a KeyError exactly
when it is not; being a pure function of the Catalog value, it modifies no
state. -/
theorem C8_get_action_dist_cls_lookup (cat : Catalog) (framework : String) :
    (∀ v : DistCls, cat.get_action_dist_cls framework = Except.ok v ↔
        alookup cat.action_dist_cls_dict framework = Option.some v) ∧
    (cat.get_action_dist_cls framework = Except.error (PyError.keyError framework) ↔
        alookup cat.action_dist_cls_dict framework = Option.none) := by
  unfold Catalog.get_action_dist_cls
  cases hx : alookup cat.action_dist_cls_dict framework <;> simp [hx]

/-- C1: for a 1-D Box observation space with use_lstm and use_attention
false, the resolved MLP config has output width encoder_latent_dim when
that key holds a positive integer and otherwise the last entry of
fcnet_hiddens, and hidden widths fcnet_hiddens verbatim when
encoder_latent_dim is set and fcnet_hiddens minus its last entry
otherwise. -/
theorem C1_mlp_latent_rule (gfc : List Nat → List (List Int)) (c : PyDict)
    (act : Option GymSpace) (vr : Option ViewReq) (w : Nat) (dt : Bool) (l : List Int)
    (hlstm : (mget (pyMerge MODEL_DEFAULTS c) "use_lstm").truthy = false)
    (hatt : (mget (pyMerge MODEL_DEFAULTS c) "use_attention").truthy = false)
    (hfc : mget (pyMerge MODEL_DEFAULTS c) "fcnet_hiddens" = CVal.intList l)
    (hne : l ≠ []) :
    (mget (pyMerge MODEL_DEFAULTS c) "encoder_latent_dim" = CVal.none →
      get_encoder_config gfc (GymSpace.box [w] dt) c act vr
        = Except.ok (EncoderConfig.mlp w (CVal.intList l.dropLast)
            (mget (pyMerge MODEL_DEFAULTS c) "fcnet_activation")
            (CVal.int (l.getLastD 0))
            (mget (pyMerge MODEL_DEFAULTS c) "fcnet_activation"),
            pyMerge MODEL_DEFAULTS c)) ∧
    (∀ k : Int, 0 < k →
      mget (pyMerge MODEL_DEFAULTS c) "encoder_latent_dim" = CVal.int k →
      get_encoder_config gfc (GymSpace.box [w] dt) c act vr
        = Except.ok (EncoderConfig.mlp w (CVal.intList l)
            (mget (pyMerge MODEL_DEFAULTS c) "fcnet_activation")
            (CVal.int k)
            (mget (pyMerge MODEL_DEFAULTS c) "fcnet_activation"),
            pyMerge MODEL_DEFAULTS c)) := by
  have hle : l.isEmpty = false := by
    cases l with
    | nil => exact absurd rfl hne
    | cons a as => rfl
  constructor
  · intro he
    simp only [get_encoder_config, eldResolve, hfc, he, hlstm, hatt]
    simp [CVal.truthy, pyIndexLast, hle, pySliceDropLast]
  · intro k hk hke
    have hkt : (CVal.int k).truthy = true := by
      simp [CVal.truthy, bne_iff_ne]
      omega
    simp only [get_encoder_config, eldResolve, hfc, hke, hlstm, hatt, hkt]
    simp [pySliceDropLast]

/-- C1 witness at the concrete inputs of the claim: fcnet_hiddens=[64,32]
with encoder_latent_dim unset gives hidden widths [64] and output 32; with
encoder_latent_dim=16 it gives hidden widths [64,32] and output 16. -/
theorem C1_mlp_latent_rule_witness :
    get_encoder_config gfcW (GymSpace.box [8] false)
        [("fcnet_hiddens", CVal.intList [64, 32])] Option.none Option.none
      = Except.ok (EncoderConfig.mlp 8 (CVal.intList [64]) (CVal.str "tanh")
          (CVal.int 32) (CVal.str "tanh"),
          pyMerge MODEL_DEFAULTS [("fcnet_hiddens", CVal.intList [64, 32])]) ∧
    get_encoder_config gfcW (GymSpace.box [8] false)
        [("fcnet_hiddens", CVal.intList [64, 32]), ("encoder_latent_dim", CVal.int 16)]
        Option.none Option.none
      = Except.ok (EncoderConfig.mlp 8 (CVal.intList [64, 32]) (CVal.str "tanh")
          (CVal.int 16) (CVal.str "tanh"),
          pyMerge MODEL_DEFAULTS
            [("fcnet_hiddens", CVal.intList [64, 32]), ("encoder_latent_dim", CVal.int 16)]) := by
  constructor
  · exact (C1_mlp_latent_rule gfcW [("fcnet_hiddens", CVal.intList [64, 32])]
      Option.none Option.none 8 false [64, 32]
      (by decide) (by decide) (by decide) (by decide)).1 (by decide)
  · exact (C1_mlp_latent_rule gfcW
      [("fcnet_hiddens", CVal.intList [64, 32]), ("encoder_latent_dim", CVal.int 16)]
      Option.none Option.none 8 false [64, 32]
      (by decide) (by decide) (by decide) (by decide)).2 16 (by decide) (by decide)

/-- Errors of the encoder-latent-dim resolution line are indexing errors,
never NotImplementedError. -/
theorem eldResolve_error_shape (m : PyDict) (er : PyError)
    (h : eldResolve m = Except.error er) :
    er = PyError.indexError ∨ er = PyError.typeError "object is not subscriptable" := by
  unfold eldResolve at h
  split_ifs at h
  cases hv : mget m "fcnet_hiddens" <;> rw [hv] at h <;>
    simp only [pyIndexLast] at h <;>
    first
    | (simp at h; exact Or.inr h.symm)
    | (split_ifs at h <;> simp at h <;> exact Or.inl h.symm)

/-- When the merged configuration has a falsy use_lstm flag, a successful
resolution never yields the LSTM variant. -/
theorem get_encoder_config_not_lstm (gfc : List Nat → List (List Int)) (obs : GymSpace)
    (c : PyDict) (act : Option GymSpace) (vr : Option ViewReq) (cfg : EncoderConfig)
    (d : PyDict)
    (hl : (mget (pyMerge MODEL_DEFAULTS c) "use_lstm").truthy = false)
    (h : get_encoder_config gfc obs c act vr = Except.ok (cfg, d)) :
    cfg.isLstm = false := by
  simp only [get_encoder_config, hl] at h
  cases hE : eldResolve (pyMerge MODEL_DEFAULTS c) <;> rw [hE] at h
  · simp at h
  · by_cases ha : (mget (pyMerge MODEL_DEFAULTS c) "use_attention").truthy
    · simp [ha] at h
    · cases obs with
      | box shape di =>
        simp only [ha] at h
        simp only [Bool.false_eq_true, if_false] at h
        split_ifs at h <;> simp at h <;> (rw [← h.1]; rfl)
      | discrete n => simp [ha] at h
      | multiDiscrete cs => simp [ha] at h
      | tuple n => simp [ha] at h
      | dict n => simp [ha] at h
      | simplex s => simp [ha] at h
      | other t => simp [ha] at h

/-- When the merged configuration has a falsy use_attention flag, resolution
never fails with the attention NotImplementedError (the empty-message one). -/
theorem get_encoder_config_not_attention_error (gfc : List Nat → List (List Int))
    (obs : GymSpace) (c : PyDict) (act : Option GymSpace) (vr : Option ViewReq)
    (ha : (mget (pyMerge MODEL_DEFAULTS c) "use_attention").truthy = false) :
    get_encoder_config gfc obs c act vr
      ≠ Except.error (PyError.notImplementedError "") := by
  intro h
  simp only [get_encoder_config] at h
  cases hE : eldResolve (pyMerge MODEL_DEFAULTS c) <;> rw [hE] at h
  case error er =>
    have her : er = PyError.notImplementedError "" := by simpa using h
    rcases eldResolve_error_shape _ _ hE with h1 | h1 <;> rw [h1] at her <;> cases her
  case ok eld =>
    by_cases hl : (mget (pyMerge MODEL_DEFAULTS c) "use_lstm").truthy
    · simp [hl] at h
    · cases obs with
      | box shape di =>
        simp only [hl, ha] at h
        simp only [Bool.false_eq_true, if_false] at h
        split_ifs at h <;> simp at h
      | discrete n => simp [hl, ha] at h
      | multiDiscrete cs => simp [hl, ha] at h
      | tuple n => simp [hl, ha] at h
      | dict n => simp [hl, ha] at h
      | simplex s => simp [hl, ha] at h
      | other t => simp [hl, ha] at h

/-- C3: with use_lstm true, get_encoder_config returns an LSTM encoder
config with hidden width and output dimension both lstm_cell_size,
batch-first equal to not _time_major, one recurrent layer and output
activation fcnet_activation; and the tokenizer obtained through
get_tokenizer_config (which forces use_lstm and use_attention false) is
never an LSTM config and never reaches the use_attention
NotImplementedError, even when the original configuration had
use_attention=True, so the recursion stops after one level. -/
theorem C3_lstm_encoder_and_tokenizer_termination :
    (∀ (gfc : List Nat → List (List Int)) (obs : GymSpace) (c : PyDict)
        (act : Option GymSpace) (vr : Option ViewReq) (e : CVal),
      (mget (pyMerge MODEL_DEFAULTS c) "use_lstm").truthy = true →
      eldResolve (pyMerge MODEL_DEFAULTS c) = Except.ok e →
      get_encoder_config gfc obs c act vr
        = Except.ok (EncoderConfig.lstm
            (mget (pyMerge MODEL_DEFAULTS c) "lstm_cell_size")
            (!(mget (pyMerge MODEL_DEFAULTS c) "_time_major").truthy) 1
            (mget (pyMerge MODEL_DEFAULTS c) "lstm_cell_size")
            (mget (pyMerge MODEL_DEFAULTS c) "fcnet_activation") obs act vr,
            pyMerge MODEL_DEFAULTS c)) ∧
    (∀ (gfc : List Nat → List (List Int)) (space : GymSpace) (c : PyDict)
        (cfg : EncoderConfig) (d : PyDict),
      get_tokenizer_config gfc space c = Except.ok (cfg, d) → cfg.isLstm = false) ∧
    (∀ (gfc : List Nat → List (List Int)) (space : GymSpace) (c : PyDict),
      get_tokenizer_config gfc space c ≠ Except.error (PyError.notImplementedError "")) := by
  refine ⟨?_, ?_, ?_⟩
  · intro gfc obs c act vr e hl he
    simp only [get_encoder_config, hl, he]
    simp
  · intro gfc space c cfg d h
    unfold get_tokenizer_config at h
    exact get_encoder_config_not_lstm _ _ _ _ _ _ _
      (by rw [(tokenizer_flags_off c).1]; rfl) h
  · intro gfc space c
    unfold get_tokenizer_config
    exact get_encoder_config_not_attention_error _ _ _ _ _
      (by rw [(tokenizer_flags_off c).2]; rfl)

/-- C3 witness: a configuration with both use_lstm and use_attention true
resolves to the LSTM config, and its tokenizer resolution on the same flags
yields a (non-LSTM) MLP config and is not the attention failure. -/
theorem C3_lstm_encoder_and_tokenizer_termination_witness :
    get_encoder_config gfcW (GymSpace.box [8] false)
        [("use_lstm", CVal.bool true), ("use_attention", CVal.bool true),
         ("lstm_cell_size", CVal.int 32), ("_time_major", CVal.bool true)]
        Option.none Option.none
      = Except.ok (EncoderConfig.lstm (CVal.int 32) false 1 (CVal.int 32) (CVal.str "tanh")
          (GymSpace.box [8] false) Option.none Option.none,
          pyMerge MODEL_DEFAULTS
            [("use_lstm", CVal.bool true), ("use_attention", CVal.bool true),
             ("lstm_cell_size", CVal.int 32), ("_time_major", CVal.bool true)]) ∧
    (EncoderConfig.mlp 8 (CVal.intList [256]) (CVal.str "tanh") (CVal.int 256)
        (CVal.str "tanh")).isLstm = false ∧
    get_tokenizer_config gfcW (GymSpace.box [8] false)
        [("use_lstm", CVal.bool true), ("use_attention", CVal.bool true)]
      ≠ Except.error (PyError.notImplementedError "") := by
  refine ⟨?_, ?_, ?_⟩
  · exact C3_lstm_encoder_and_tokenizer_termination.1 gfcW (GymSpace.box [8] false)
      [("use_lstm", CVal.bool true), ("use_attention", CVal.bool true),
       ("lstm_cell_size", CVal.int 32), ("_time_major", CVal.bool true)]
      Option.none Option.none (CVal.int 256) (by decide) (by decide)
  · exact C3_lstm_encoder_and_tokenizer_termination.2.1 gfcW (GymSpace.box [8] false)
      [("use_lstm", CVal.bool true), ("use_attention", CVal.bool true)]
      (EncoderConfig.mlp 8 (CVal.intList [256]) (CVal.str "tanh") (CVal.int 256)
        (CVal.str "tanh"))
      (pyMerge MODEL_DEFAULTS (pyMerge
        [("use_lstm", CVal.bool true), ("use_attention", CVal.bool true)]
        [("use_lstm", CVal.bool false), ("use_attention", CVal.bool false)]))
      (by decide)
  · exact C3_lstm_encoder_and_tokenizer_termination.2.2 gfcW (GymSpace.box [8] false)
      [("use_lstm", CVal.bool true), ("use_attention", CVal.bool true)]

/-- C4: the resolvers reject the specified invalid inputs with the
specified error kinds, immediately: an integer-typed Box action space
raises ValueError (the spec's InvalidConfiguration), a float Box action
space with more than one shape dimension raises UnsupportedSpaceException,
Tuple, Dict, Simplex, MultiDiscrete and unrecognized action spaces raise
NotImplementedError, a non-1D-non-3D observation space raises
NotImplementedError, and use_attention true with use_lstm false raises
NotImplementedError. -/
theorem C4_rejected_inputs :
    (∀ (shape : List Nat) (det : Bool),
      get_action_dist_cls_dict (GymSpace.box shape true) det
        = Except.error (PyError.valueError
            "Box(..., int) action spaces are not supported. Use MultiDiscrete  or Box(..., float).")) ∧
    (∀ (shape : List Nat) (det : Bool), 1 < shape.length →
      get_action_dist_cls_dict (GymSpace.box shape false) det
        = Except.error PyError.unsupportedSpaceException) ∧
    (∀ (n : Nat) (det : Bool),
      get_action_dist_cls_dict (GymSpace.tuple n) det
        = Except.error (PyError.notImplementedError "Tuple/Dict spaces not yet supported.") ∧
      get_action_dist_cls_dict (GymSpace.dict n) det
        = Except.error (PyError.notImplementedError "Tuple/Dict spaces not yet supported.")) ∧
    (∀ (sh : List Nat) (det : Bool),
      get_action_dist_cls_dict (GymSpace.simplex sh) det
        = Except.error (PyError.notImplementedError "Simplex action space not yet supported.")) ∧
    (∀ (cs : List Nat) (det : Bool),
      get_action_dist_cls_dict (GymSpace.multiDiscrete cs) det
        = Except.error (PyError.notImplementedError "MultiDiscrete spaces not yet supported.")) ∧
    (∀ (t : String) (det : Bool),
      get_action_dist_cls_dict (GymSpace.other t) det
        = Except.error (PyError.notImplementedError "Unsupported action space")) ∧
    (∀ (gfc : List Nat → List (List Int)) (c : PyDict) (act : Option GymSpace)
        (vr : Option ViewReq) (obs : GymSpace) (e : CVal),
      (∀ (shape : List Nat) (di : Bool), obs = GymSpace.box shape di →
        shape.length ≠ 1 ∧ shape.length ≠ 3) →
      (mget (pyMerge MODEL_DEFAULTS c) "use_lstm").truthy = false →
      (mget (pyMerge MODEL_DEFAULTS c) "use_attention").truthy = false →
      eldResolve (pyMerge MODEL_DEFAULTS c) = Except.ok e →
      get_encoder_config gfc obs c act vr
        = Except.error (PyError.notImplementedError "No default config for complex spaces yet!")) ∧
    (∀ (gfc : List Nat → List (List Int)) (c : PyDict) (act : Option GymSpace)
        (vr : Option ViewReq) (obs : GymSpace) (e : CVal),
      (mget (pyMerge MODEL_DEFAULTS c) "use_lstm").truthy = false →
      (mget (pyMerge MODEL_DEFAULTS c) "use_attention").truthy = true →
      eldResolve (pyMerge MODEL_DEFAULTS c) = Except.ok e →
      get_encoder_config gfc obs c act vr
        = Except.error (PyError.notImplementedError "")) := by
  refine ⟨?_, ?_, ?_, ?_, ?_, ?_, ?_, ?_⟩
  · intro shape det; rfl
  · intro shape det h
    simp [get_action_dist_cls_dict, h]
  · intro n det; exact ⟨rfl, rfl⟩
  · intro sh det; rfl
  · intro cs det; rfl
  · intro t det; rfl
  · intro gfc c act vr obs e hobs hl ha he
    simp only [get_encoder_config, hl, ha, he]
    cases obs with
    | box shape di =>
      obtain ⟨h1, h3⟩ := hobs shape di rfl
      simp [h1, h3]
    | discrete n => simp
    | multiDiscrete cs => simp
    | tuple n => simp
    | dict n => simp
    | simplex s => simp
    | other t => simp
  · intro gfc c act vr obs e hl ha he
    simp only [get_encoder_config, hl, ha, he]
    simp

/-- C4 witness at concrete rejected inputs. -/
theorem C4_rejected_inputs_witness :
    get_action_dist_cls_dict (GymSpace.box [4] true) false
      = Except.error (PyError.valueError
          "Box(..., int) action spaces are not supported. Use MultiDiscrete  or Box(..., float).") ∧
    get_action_dist_cls_dict (GymSpace.box [4, 2] false) false
      = Except.error PyError.unsupportedSpaceException ∧
    get_encoder_config gfcW (GymSpace.tuple 2) [] Option.none Option.none
      = Except.error (PyError.notImplementedError "No default config for complex spaces yet!") ∧
    get_encoder_config gfcW (GymSpace.box [8] false)
        [("use_attention", CVal.bool true)] Option.none Option.none
      = Except.error (PyError.notImplementedError "") := by
  refine ⟨?_, ?_, ?_, ?_⟩
  · exact C4_rejected_inputs.1 [4] false
  · exact C4_rejected_inputs.2.1 [4, 2] false (by decide)
  · exact C4_rejected_inputs.2.2.2.2.2.2.1 gfcW [] Option.none Option.none
      (GymSpace.tuple 2) (CVal.int 256) (by intro shape di h; cases h)
      (by decide) (by decide) (by decide)
  · exact C4_rejected_inputs.2.2.2.2.2.2.2 gfcW [("use_attention", CVal.bool true)]
      Option.none Option.none (GymSpace.box [8] false) (CVal.int 256)
      (by decide) (by decide) (by decide)

/-- C7: every successfully constructed Catalog satisfies latent_dim =
encoder_config.output_dim; all attributes are set in the one constructed
value, and on a resolution failure no Catalog value exists at all. -/
theorem C7_latent_dim_consistency (gfc : List Nat → List (List Int)) (s : Store)
    (obs act : GymSpace) (cfgRef : Nat) (vr : Option ViewReq) (cat : Catalog) (s' : Store)
    (h : Catalog.init gfc s obs act cfgRef vr = (Except.ok cat, s')) :
    cat.latent_dim = cat.encoder_config.output_dim := by
  simp only [Catalog.init] at h
  split at h
  all_goals try split at h
  all_goals simp at h
  all_goals rw [← h.1]

/-- The Catalog value produced by the C7 witness construction. -/
def catC7 : Catalog :=
  Catalog.mk (GymSpace.box [8] false) (GymSpace.discrete 2) 1 Option.none
    (EncoderConfig.mlp 8 (CVal.intList [256]) (CVal.str "tanh") (CVal.int 256)
      (CVal.str "tanh"))
    [("torch", DistCls.TorchCategorical), ("tf", DistCls.TfCategorical)] (CVal.int 256)

/-- The store produced by the C7 witness construction: the caller dict, the
stored merged dict, and the resolver-local merged dict. -/
def storeC7 : Store := Store.mk [[], MODEL_DEFAULTS, MODEL_DEFAULTS]

/-- C7 witness: a concrete successful construction. -/
theorem C7_latent_dim_consistency_witness :
    Catalog.init gfcW (Store.mk [[]]) (GymSpace.box [8] false) (GymSpace.discrete 2) 0
        Option.none = (Except.ok catC7, storeC7) ∧
    catC7.latent_dim = catC7.encoder_config.output_dim :=
  ⟨by decide,
   C7_latent_dim_consistency gfcW (Store.mk [[]]) (GymSpace.box [8] false)
     (GymSpace.discrete 2) 0 Option.none catC7 storeC7 (by decide)⟩

/-- C9: get_encoder_config never changes the dict object the caller passed
in: the defaults merge allocates a fresh dict and the conv_filters
write-back targets only that fresh object, so the caller's dict reads back
unchanged from the resulting store, on success and on failure alike. -/
theorem C9_caller_dict_unchanged (gfc : List Nat → List (List Int)) (s : Store)
    (obs : GymSpace) (cfgRef : Nat) (act : Option GymSpace) (vr : Option ViewReq)
    (h : cfgRef < s.dicts.length) :
    ((get_encoder_config_st gfc s obs cfgRef act vr).2).get cfgRef = s.get cfgRef := by
  unfold get_encoder_config_st
  split
  · simp only [Store.get, Store.alloc]
    exact getD_append_lt _ _ _ _ h
  · simp only [Store.get, Store.alloc]
    exact getD_append_lt _ _ _ _ h

/-- C9 witness: a concrete resolution (the 3-D Box path, which writes the
derived conv_filters) leaves the caller's dict unchanged. -/
theorem C9_caller_dict_unchanged_witness :
    0 < (Store.mk [[("custom", CVal.int 1)]]).dicts.length ∧
    ((get_encoder_config_st gfcW (Store.mk [[("custom", CVal.int 1)]])
        (GymSpace.box [84, 84, 4] false) 0 Option.none Option.none).2).get 0
      = (Store.mk [[("custom", CVal.int 1)]]).get 0 :=
  ⟨by decide,
   C9_caller_dict_unchanged gfcW (Store.mk [[("custom", CVal.int 1)]])
     (GymSpace.box [84, 84, 4] false) 0 Option.none Option.none (by decide)⟩

/-- The store component returned by get_encoder_config_st is always the
input store extended by the one freshly allocated resolver-local dict. -/
theorem get_encoder_config_st_store (gfc : List Nat → List (List Int)) (s : Store)
    (obs : GymSpace) (cfgRef : Nat) (act : Option GymSpace) (vr : Option ViewReq) :
    ∃ d : PyDict, (get_encoder_config_st gfc s obs cfgRef act vr).2 = (s.alloc d).1 := by
  unfold get_encoder_config_st
  split
  · exact ⟨_, rfl⟩
  · exact ⟨_, rfl⟩

/-- After any successful construction, the Catalog's stored
model_config_dict reference still holds exactly the defaults-merge of the
caller's dict: the resolver's conv_filters write-back never reaches it. -/
theorem init_stored_dict (gfc : List Nat → List (List Int)) (s : Store)
    (obs act : GymSpace) (cfgRef : Nat) (vr : Option ViewReq) (cat : Catalog) (s' : Store)
    (h : Catalog.init gfc s obs act cfgRef vr = (Except.ok cat, s')) :
    s'.get cat.model_config_dict = pyMerge MODEL_DEFAULTS (s.get cfgRef) := by
  simp only [Catalog.init] at h
  obtain ⟨d, hd⟩ := get_encoder_config_st_store gfc
    ((s.alloc (pyMerge MODEL_DEFAULTS (s.get cfgRef))).1) obs cfgRef (Option.some act) vr
  rcases hst : get_encoder_config_st gfc
      ((s.alloc (pyMerge MODEL_DEFAULTS (s.get cfgRef))).1) obs cfgRef (Option.some act) vr
    with ⟨res, s2⟩
  rw [hst] at h
  cases res with
  | error e => simp at h
  | ok enc =>
    cases hdist : get_action_dist_cls_dict act false with
    | error e2 => rw [hdist] at h; simp at h
    | ok dists =>
      rw [hdist] at h
      simp at h
      obtain ⟨hcat, hs⟩ := h
      rw [← hs, ← hcat]
      have hs2 : s2 = (((s.alloc (pyMerge MODEL_DEFAULTS (s.get cfgRef))).1).alloc d).1 := by
        rw [hst] at hd; exact hd
      rw [hs2]
      simp only [Store.alloc, Store.get]
      rw [getD_append_lt _ _ _ _ (by simp), getD_append_self]
      rfl

/-- C2 (amended): a 3-D Box observation space with no conv_filters supplied
(and use_lstm and use_attention falsy) resolves to a CNN encoder config
whose filter specifiers equal get_filter_config(observation_space.shape);
the derived filters are written only to the resolver's internal merged
copy, while the Catalog's stored model_config_dict keeps the plain
defaults-merge of the caller's dict (so the derived spec is not visible
there). -/
theorem C2_cnn_filters (gfc : List Nat → List (List Int)) (c : PyDict)
    (act : Option GymSpace) (vr : Option ViewReq) (sh : List Nat) (dt : Bool) (e : CVal)
    (h3 : sh.length = 3)
    (hlstm : (mget (pyMerge MODEL_DEFAULTS c) "use_lstm").truthy = false)
    (hatt : (mget (pyMerge MODEL_DEFAULTS c) "use_attention").truthy = false)
    (he : eldResolve (pyMerge MODEL_DEFAULTS c) = Except.ok e)
    (hcf : (mget (pyMerge MODEL_DEFAULTS c) "conv_filters").truthy = false) :
    get_encoder_config gfc (GymSpace.box sh dt) c act vr
      = Except.ok (EncoderConfig.cnn sh (CVal.intListList (gfc sh))
          (mget (pyMerge MODEL_DEFAULTS c) "fcnet_activation")
          (mget (pyMerge MODEL_DEFAULTS c) "fcnet_activation") e,
          setKey (pyMerge MODEL_DEFAULTS c) "conv_filters" (CVal.intListList (gfc sh))) ∧
    (∀ (s : Store) (cfgRef : Nat) (aspace : GymSpace) (cat : Catalog) (s' : Store),
      s.get cfgRef = c →
      Catalog.init gfc s (GymSpace.box sh dt) aspace cfgRef vr = (Except.ok cat, s') →
      s'.get cat.model_config_dict = pyMerge MODEL_DEFAULTS c) := by
  have hne1 : sh.length ≠ 1 := by rw [h3]; decide
  constructor
  · simp only [get_encoder_config, he, hlstm, hatt, hcf]
    simp [hne1, h3, mget_setKey]
  · intro s cfgRef aspace cat s' hsc hinit
    rw [← hsc]
    exact init_stored_dict gfc s (GymSpace.box sh dt) aspace cfgRef vr cat s' hinit

/-- The Catalog value produced by the C2 construction. -/
def catC2 : Catalog :=
  Catalog.mk (GymSpace.box [84, 84, 4] false) (GymSpace.discrete 2) 1 Option.none
    (EncoderConfig.cnn [84, 84, 4] (CVal.intListList [[16, 8, 4], [32, 4, 2], [256, 11, 1]])
      (CVal.str "tanh") (CVal.str "tanh") (CVal.int 256))
    [("torch", DistCls.TorchCategorical), ("tf", DistCls.TfCategorical)] (CVal.int 256)

/-- The store produced by the C2 construction: caller dict, stored merged
dict (still with conv_filters None), resolver-local dict (with the derived
conv_filters). -/
def storeC2 : Store :=
  Store.mk [[], MODEL_DEFAULTS,
    setKey MODEL_DEFAULTS "conv_filters"
      (CVal.intListList [[16, 8, 4], [32, 4, 2], [256, 11, 1]])]

/-- C2 counterexample: at the concrete 3-D Box input of the claim, the
derived filter specifiers do appear in the returned CNN config, but they
are not visible in the Catalog's stored merged model configuration, which
still holds the default None for conv_filters. -/
theorem C2_cnn_filters_counterexample :
    Catalog.init gfcW (Store.mk [[]]) (GymSpace.box [84, 84, 4] false) (GymSpace.discrete 2)
        0 Option.none = (Except.ok catC2, storeC2) ∧
    catC2.encoder_config = EncoderConfig.cnn [84, 84, 4]
        (CVal.intListList (gfcW [84, 84, 4])) (CVal.str "tanh") (CVal.str "tanh")
        (CVal.int 256) ∧
    mget (storeC2.get catC2.model_config_dict) "conv_filters" = CVal.none ∧
    CVal.none ≠ CVal.intListList (gfcW [84, 84, 4]) :=
  ⟨by decide, by decide, by decide, by decide⟩

/-- C2 witness: the amended claim at the concrete input of the claim. -/
theorem C2_cnn_filters_witness :
    get_encoder_config gfcW (GymSpace.box [84, 84, 4] false) [] Option.none Option.none
      = Except.ok (EncoderConfig.cnn [84, 84, 4]
          (CVal.intListList (gfcW [84, 84, 4])) (CVal.str "tanh") (CVal.str "tanh")
          (CVal.int 256),
          setKey (pyMerge MODEL_DEFAULTS []) "conv_filters"
            (CVal.intListList (gfcW [84, 84, 4]))) ∧
    (Store.mk [[]]).get 0 = ([] : PyDict) ∧
    Catalog.init gfcW (Store.mk [[]]) (GymSpace.box [84, 84, 4] false) (GymSpace.discrete 2)
        0 Option.none = (Except.ok catC2, storeC2) ∧
    storeC2.get catC2.model_config_dict = pyMerge MODEL_DEFAULTS [] := by
  have hmain := C2_cnn_filters gfcW [] Option.none Option.none [84, 84, 4] false
    (CVal.int 256) (by decide) (by decide) (by decide) (by decide) (by decide)
  refine ⟨hmain.1, by decide, by decide, ?_⟩
  exact hmain.2 (Store.mk [[]]) 0 (GymSpace.discrete 2) catC2 storeC2 (by decide) (by decide)

/-- C10: pre-merging the defaults into the configuration before calling the
resolver does not change the resolved encoder config (the resolver
re-merges the defaults internally and the overlay is idempotent), so the
Catalog passing its raw model_config_dict to the resolver yields the same
encoder config as passing its stored merged model_config_dict. -/
theorem C10_premerge_noop (gfc : List Nat → List (List Int)) (obs : GymSpace) (c : PyDict)
    (act : Option GymSpace) (vr : Option ViewReq) :
    (get_encoder_config gfc obs c act vr).map Prod.fst
      = (get_encoder_config gfc obs (pyMerge MODEL_DEFAULTS c) act vr).map Prod.fst := by
  have h := mget_pyMerge_defaults_idem c
  have held : eldResolve (pyMerge MODEL_DEFAULTS (pyMerge MODEL_DEFAULTS c))
      = eldResolve (pyMerge MODEL_DEFAULTS c) := by
    simp only [eldResolve, h]
  simp only [get_encoder_config, held, h]
  cases hE : eldResolve (pyMerge MODEL_DEFAULTS c) with
  | error e => rfl
  | ok eld =>
    by_cases hl : (mget (pyMerge MODEL_DEFAULTS c) "use_lstm").truthy
    · simp [hl, Except.map]
    · by_cases ha : (mget (pyMerge MODEL_DEFAULTS c) "use_attention").truthy
      · simp [hl, ha, Except.map]
      · cases obs with
        | box shape di =>
          by_cases h1 : shape.length = 1
          · simp [hl, ha, h1, Except.map]
          · by_cases h3 : shape.length = 3
            · by_cases hcf : (mget (pyMerge MODEL_DEFAULTS c) "conv_filters").truthy
              · simp [hl, ha, h1, h3, hcf, h, Except.map]
              · simp [hl, ha, h1, h3, hcf, mget_setKey, Except.map]
            · simp [hl, ha, h1, h3, Except.map]
        | discrete n => simp [hl, ha, Except.map]
        | multiDiscrete cs => simp [hl, ha, Except.map]
        | tuple n => simp [hl, ha, Except.map]
        | dict n => simp [hl, ha, Except.map]
        | simplex s => simp [hl, ha, Except.map]
        | other t => simp [hl, ha, Except.map]
